import Mathlib

/-!
Verification development for the newrality-transcribe repository.

We give a shallow embedding of the core of the service:
`app/config.py` (settings), `app/utils.py` (validation, streamed upload
saving, temp-file cleanup), `app/transcription.py` (model lifecycle and
the transcription invoker) and the `transcribe_audio` endpoint handler of
`app/main.py`.  Python strings are embedded as `String` with char-level
re-implementations of the string methods used by the source (`lower`,
`strip`, `split`, `lstrip`, `join`, `pathlib` suffix extraction) so that
every definition evaluates inside the kernel.  Machine floats that are
only carried through unchanged (temperatures, timestamps, durations) are
embedded as `Rat`; no float arithmetic from the source is modelled.
Filesystem state relevant to one request is the content of the single
per-request temp path, embedded as `Option (List Nat)` (`none` = no file
at the generated temp path).  Exceptions are embedded as `Except`.
-/

/-- Python truthiness of an optional string: `None` and `""` are falsy. -/
def pyTruthyStr : Option String → Bool
  | none => false
  | some s => !(s == "")

/-- Char-level embedding of Python `str.lower()` (ASCII case folding,
which is all the source applies it to: file extensions and format lists). -/
def lowerStr (s : String) : String :=
  String.mk (s.data.map Char.toLower)

/-- Char-level embedding of Python `str.strip()` with no argument:
drop leading and trailing whitespace. -/
def trimChars (l : List Char) : List Char :=
  ((l.dropWhile Char.isWhitespace).reverse.dropWhile Char.isWhitespace).reverse

/-- Embedding of Python `str.strip()`. -/
def trimStr (s : String) : String :=
  String.mk (trimChars s.data)

/-- Embedding of Python `str.split(sep)` for a one-character separator:
splits on every occurrence, keeping empty pieces (as Python does). -/
def splitOnChar (c : Char) (l : List Char) : List (List Char) :=
  l.foldr
    (fun a acc =>
      match acc with
      | [] => [[a]]
      | g :: gs => if a = c then [] :: g :: gs else (a :: g) :: gs)
    [[]]

/-- `str.split(sep)` on `String`s. -/
def splitOnCharStr (c : Char) (s : String) : List String :=
  (splitOnChar c s.data).map String.mk

/-- Embedding of Python `sep.join(parts)`. -/
def joinWith (sep : String) : List String → String
  | [] => ""
  | [x] => x
  | x :: y :: rest => x ++ sep ++ joinWith sep (y :: rest)

/-- Index of the last occurrence of `c` in `l` (Python `str.rfind`),
`none` when absent. -/
def lastIdxOf (c : Char) : List Char → Option Nat
  | [] => none
  | a :: rest =>
    match lastIdxOf c rest with
    | some i => some (i + 1)
    | none => if a = c then some 0 else none

/-- Embedding of `pathlib.PurePath(s).name`: the last nonempty
slash-separated component (pathlib drops trailing slashes and collapses
repeated slashes). -/
def pathNameOf (s : String) : String :=
  String.mk (((splitOnChar '/' s.data).filter (fun l => !l.isEmpty)).getLastD [])

/-- Embedding of `pathlib.PurePath(s).suffix`: the substring of the name
from its last dot, provided that dot is neither the first nor the last
character of the name (CPython's `0 < i < len(name) - 1` test). -/
def pathSuffixOf (s : String) : String :=
  let nm := (pathNameOf s).data
  match lastIdxOf '.' nm with
  | some i => if 0 < i ∧ i + 1 < nm.length then String.mk (nm.drop i) else ""
  | none => ""

/-- `app/utils.py` line 40: `Path(file.filename).suffix.lstrip('.').lower()`.
`lstrip('.')` removes every leading dot. -/
def fileExt (filename : String) : String :=
  lowerStr (String.mk ((pathSuffixOf filename).data.dropWhile (fun a => a = '.')))

/-! ## Configuration (`app/config.py`)

Only the fields the core reads are embedded; server/auth fields are
simple glue outside every claim. -/

/-- The settings surface consumed by the core (`app/config.py`). -/
structure Settings where
  default_language : String
  default_temperature : Rat
  default_beam_size : Nat
  max_file_size_mb : Nat
  allowed_audio_formats : String
  enable_vad_filter : Bool
deriving DecidableEq, Repr

/-- `Settings.allowed_formats_list`: split the comma-separated format
string, keep the entries with nonempty `strip()`, and lowercase each
stripped entry (`config.py` line 84). -/
def Settings.allowed_formats_list (st : Settings) : List String :=
  ((splitOnCharStr ',' st.allowed_audio_formats).filter
      (fun f => !(trimStr f == ""))).map (fun f => lowerStr (trimStr f))

/-- `Settings.max_file_size_bytes = max_file_size_mb * 1024 * 1024`
(`config.py` line 89). -/
def Settings.max_file_size_bytes (st : Settings) : Nat :=
  st.max_file_size_mb * 1024 * 1024

/-- The default settings values of `config.py`. -/
def defaultSettings : Settings :=
  { default_language := "it"
    default_temperature := 0
    default_beam_size := 5
    max_file_size_mb := 25
    allowed_audio_formats := "mp3,wav,m4a,ogg,flac,webm"
    enable_vad_filter := true }

/-! ## Response models (`app/models.py`) and errors -/

/-- One transcription segment of the response model (`models.py`).
The source field `end` is a Lean keyword and is embedded as `stop`;
`start`/`stop` floats are carried through unchanged and embedded as `Rat`. -/
structure TranscriptionSegment where
  id : Int
  start : Rat
  stop : Rat
  text : String
deriving DecidableEq, Repr

/-- The success payload of the endpoint (`models.py` TranscriptionResponse). -/
structure TranscriptionResponse where
  text : String
  language : String
  duration : Rat
  segments : Option (List TranscriptionSegment)
deriving DecidableEq, Repr

/-- An `HTTPException` as raised by the source: status code plus detail. -/
structure HTTPErr where
  code : Nat
  detail : String
deriving DecidableEq, Repr

/-! ## Upload validation and ingestion (`app/utils.py`) -/

/-- `validate_audio_file` (`utils.py` lines 16-48).  The `if not file`
branch of the source cannot fire here: FastAPI always supplies an
`UploadFile` object, which has no falsiness override, so only the
filename checks are live.  A missing (`None`) or empty filename is
rejected, then the extension must be in the allowed-format list. -/
def validate_audio_file (filename : Option String) (st : Settings) : Except HTTPErr Unit :=
  if pyTruthyStr filename = false then
    .error ⟨400, "File must have a filename"⟩
  else if st.allowed_formats_list.contains (fileExt (filename.getD "")) then
    .ok ()
  else
    .error ⟨400, "Unsupported audio format: " ++ fileExt (filename.getD "") ++
      ". Allowed formats: " ++ joinWith ", " st.allowed_formats_list⟩

/-- Bytes of one upload chunk (`file.read(8192)` result). -/
abbrev Bytes := List Nat

/-- Total byte count of a chunk list. -/
def totalLen : List Bytes → Nat
  | [] => 0
  | c :: cs => c.length + totalLen cs

/-- Concatenation of all chunks in order. -/
def flattenChunks : List Bytes → Bytes
  | [] => []
  | c :: cs => c ++ flattenChunks cs

/-- The streaming loop of `save_upload_to_temp` (`utils.py` lines 74-91):
for each chunk, add its length to the running count; if the count now
exceeds the limit, delete the partial file and abort (the offending chunk
is never written); otherwise append the chunk to the file.  Returns the
written content on success paired with the bytes consumed from the
stream.  `chunks` is the sequence of nonempty reads the stream yields. -/
def saveLoop (maxB : Nat) : List Bytes → Nat → Bytes → Except Unit Bytes × Nat
  | [], size, content => (.ok content, size)
  | c :: cs, size, content =>
    let size1 := size + c.length
    if maxB < size1 then (.error (), size1)
    else saveLoop maxB cs size1 (content ++ c)

/-- `save_upload_to_temp` (`utils.py` lines 51-104).  The generated
random temp path is abstracted to the single per-request temp slot, whose
final content is the second component (`none` = no file at the path).
`storageFail` is the oracle for the `except Exception` branch (an I/O
failure on open; the partial file is removed and a 500 is raised).
Returns ((size result or HTTPException), final temp-slot content,
bytes consumed from the upload stream). -/
def save_upload_to_temp (st : Settings) (chunks : List Bytes) (storageFail : Bool) :
    Except HTTPErr Nat × Option Bytes × Nat :=
  if storageFail then
    (.error ⟨500, "Failed to save uploaded file"⟩, none, 0)
  else
    match saveLoop st.max_file_size_bytes chunks 0 [] with
    | (.error _, consumed) =>
      (.error ⟨413, "File too large. Maximum size: " ++
          toString st.max_file_size_mb ++ "MB"⟩, none, consumed)
    | (.ok content, size) => (.ok size, some content, size)

/-- The body of `cleanup_temp_file` before its `except` clause
(`utils.py` lines 114-116): remove the file if it exists; `removeOk`
is the oracle for whether `os.remove` succeeds (on failure the file
remains and an exception propagates to the handler below). -/
def cleanupBody (fs : Option Bytes) (removeOk : Bool) : Except Unit (Option Bytes) :=
  if fs.isSome then
    if removeOk then .ok none else .error ()
  else
    .ok fs

/-- `cleanup_temp_file` (`utils.py` lines 107-119): the body wrapped in
`try ... except Exception: pass`, so the call itself never raises and on
a failed removal the filesystem is left as it was. -/
def cleanup_temp_file (fs : Option Bytes) (removeOk : Bool) : Except Unit (Option Bytes) :=
  match cleanupBody fs removeOk with
  | .ok fs2 => .ok fs2
  | .error _ => .ok fs

/-- The filesystem effect of `cleanup_temp_file` (it never raises, so the
`Except` layer always yields a state). -/
def cleanupFs (fs : Option Bytes) (removeOk : Bool) : Option Bytes :=
  match cleanup_temp_file fs removeOk with
  | .ok fs2 => fs2
  | .error _ => fs

/-! ## Model lifecycle (`app/transcription.py`, `TranscriptionService`)

`load_model_async` is embedded sequentially: each call's background
thread runs to completion (under `_load_lock`, which makes the body
atomic) before the next call is made.  The ghost field `attempts` counts
`WhisperModel` constructor invocations. -/

/-- The outcome the engine constructor would have on one attempt. -/
inductive LoadOutcome where
  | success
  | failure (msg : String)
deriving DecidableEq, Repr

/-- The mutable fields of `TranscriptionService` that the lifecycle
touches, plus the ghost construction counter. -/
structure LoaderState where
  model : Bool
  loading : Bool
  load_error : Option String
  attempts : Nat
deriving DecidableEq, Repr

/-- `TranscriptionService.__init__` lifecycle fields. -/
def initialLoader : LoaderState :=
  { model := false, loading := false, load_error := none, attempts := 0 }

/-- The `_load` closure of `load_model_async` (`transcription.py` lines
32-59), run with `_load_lock` held: re-check `model`, set `loading`,
attempt construction; on failure record
`"Failed to load Whisper model: " ++ msg` in `load_error` (the error is
never cleared on a later success); `loading` is reset in `finally`. -/
def loadBody (o : LoadOutcome) (s : LoaderState) : LoaderState :=
  if s.model then s
  else
    match o with
    | .success =>
      { s with model := true, loading := false, attempts := s.attempts + 1 }
    | .failure m =>
      { s with load_error := some ("Failed to load Whisper model: " ++ m)
               loading := false, attempts := s.attempts + 1 }

/-- `load_model_async` (`transcription.py` lines 27-62): return at once
when the model is loaded or a load is in flight; otherwise spawn the
loader thread (run here to completion, sequential embedding). -/
def load_model_async (o : LoadOutcome) (s : LoaderState) : LoaderState :=
  if s.model || s.loading then s else loadBody o s

/-- A sequence of `load_model_async` calls with the given per-call
constructor outcomes, from a starting state. -/
def runCalls (os : List LoadOutcome) (s : LoaderState) : LoaderState :=
  match os with
  | [] => s
  | o :: rest => runCalls rest (load_model_async o s)

/-! ### `wait_for_model`

The polling loop sleeps 0.5 s per iteration and compares elapsed
wall-clock time with `timeout`; we discretize time into poll indices, so
`timeout` below is measured in polls and a trace `σ` gives the service
state observed at each poll. -/

/-- The fields of `TranscriptionService` that `wait_for_model` reads. -/
structure SvcObs where
  model : Bool
  loading : Bool
  load_error : Option String
deriving DecidableEq, Repr

/-- The canonical lifecycle states of the spec. -/
def uninitObs : SvcObs := { model := false, loading := false, load_error := none }

/-- State while the loader thread is constructing the engine. -/
def loadingObs : SvcObs := { model := false, loading := true, load_error := none }

/-- State after a successful load. -/
def readyObs : SvcObs := { model := true, loading := false, load_error := none }

/-- State after a failed load with captured engine message `m`. -/
def failedObs (m : String) : SvcObs :=
  { model := false, loading := false
    load_error := some ("Failed to load Whisper model: " ++ m) }

/-- A trace takes only the four canonical lifecycle states. -/
def CanonTrace (σ : Nat → SvcObs) : Prop :=
  ∀ k, σ k = uninitObs ∨ σ k = loadingObs ∨ σ k = readyObs ∨ ∃ m, σ k = failedObs m

/-- The `while` loop of `wait_for_model` (`transcription.py` line 67):
keep polling while `model is None and loading and elapsed < timeout`.
Returns the poll index at which the loop exits; `fuel` bounds the
recursion (the caller passes `timeout + 1`, which the loop never
exhausts since `k` grows by one per iteration). -/
def loopExit (σ : Nat → SvcObs) (timeout : Nat) : Nat → Nat → Nat
  | 0, k => k
  | fuel + 1, k =>
    if (σ k).model = false ∧ (σ k).loading = true ∧ k < timeout then
      loopExit σ timeout fuel (k + 1)
    else k

/-- The message of the `RuntimeError` raised on timeout or when no load
was ever started (`transcription.py` line 74). -/
def waitTimeoutMsg : String := "Model loading timeout or model not started"

/-- `wait_for_model` (`transcription.py` lines 64-74): poll, then raise
the captured load error if one is recorded (Python truthiness), then
raise the timeout message if the model is still unset, else return. -/
def wait_for_model (σ : Nat → SvcObs) (timeout : Nat) : Except String Unit :=
  let k := loopExit σ timeout (timeout + 1) 0
  let s := σ k
  if pyTruthyStr s.load_error then .error ((s.load_error).getD "")
  else if s.model = false then .error waitTimeoutMsg
  else .ok ()

/-! ## Parameter resolution and the transcription invoker
(`TranscriptionService.transcribe`, `transcription.py` lines 76-177) -/

/-- The default resolution of `transcribe` (`transcription.py` lines
107-110): `language = language or default` (Python `or`, so an empty
string also falls back), `temperature` via an explicit `is not None`
test, `beam_size = beam_size or default` (zero would also fall back). -/
def resolveParams (st : Settings) (language : Option String) (temperature : Option Rat)
    (beam_size : Option Nat) : String × Rat × Nat :=
  (match language with
   | some l => if l = "" then st.default_language else l
   | none => st.default_language,
   match temperature with
   | some t => t
   | none => st.default_temperature,
   match beam_size with
   | some b => if b = 0 then st.default_beam_size else b
   | none => st.default_beam_size)

/-- One segment as emitted by the engine (`faster-whisper`): identifier,
timestamps (carried through unchanged, embedded as `Rat`), text. -/
structure EngineSegment where
  id : Int
  start : Rat
  stop : Rat
  text : String
deriving DecidableEq, Repr

/-- The engine metadata record (`info`); `language` is its reported
language, `none` embedding Python `None`. -/
structure EngineInfo where
  language : Option String
deriving DecidableEq, Repr

/-- The segment-collection loop of `transcribe` (`transcription.py`
lines 136-150): one forward pass over the engine's segments, always
accumulating the stripped text, and additionally recording a
`TranscriptionSegment` per segment when `include_segments` is set. -/
def collectSegments (inc : Bool) : List EngineSegment → List String × List TranscriptionSegment
  | [] => ([], [])
  | s :: rest =>
    let r := collectSegments inc rest
    (trimStr s.text :: r.1,
     if inc then ⟨s.id, s.start, s.stop, trimStr s.text⟩ :: r.2 else r.2)

/-- The pure core of `transcribe` after the engine call (`transcription.py`
lines 136-173): join the stripped texts with single spaces, take the
detected language from `info.language` when truthy and otherwise fall
back to the resolved input language, and return the segment list only
when `include_segments` was requested.  Wall-clock `duration` is not
modelled. -/
def transcribeCore (segs : List EngineSegment) (info : EngineInfo) (language : String)
    (include_segments : Bool) : String × String × Option (List TranscriptionSegment) :=
  let acc := collectSegments include_segments segs
  let full_text := joinWith " " acc.1
  let detected_language := if pyTruthyStr info.language then info.language.getD language else language
  (full_text, detected_language, if include_segments then some acc.2 else none)

/-! ## The endpoint handler (`app/main.py`, `transcribe_audio`) -/

/-- Decidable equality for `Except`, used to evaluate concrete handler
runs in witnesses. -/
instance instDecEqExcept {ε α : Type} [DecidableEq ε] [DecidableEq α] :
    DecidableEq (Except ε α) := fun a b =>
  match a, b with
  | .error e1, .error e2 =>
    if h : e1 = e2 then .isTrue (by rw [h]) else .isFalse (by intro hc; cases hc; exact h rfl)
  | .ok v1, .ok v2 =>
    if h : v1 = v2 then .isTrue (by rw [h]) else .isFalse (by intro hc; cases hc; exact h rfl)
  | .error _, .ok _ => .isFalse (by intro hc; cases hc)
  | .ok _, .error _ => .isFalse (by intro hc; cases hc)

/-- The tuple a successful `transcription_service.transcribe` call
returns to the handler. -/
structure TranscribeOk where
  text : String
  language : String
  duration : Rat
  segments : Option (List TranscriptionSegment)
deriving DecidableEq, Repr

/-- What one handler invocation produces: the response or the
`HTTPException` propagated to the transport layer, the final content of
the request's temp path, and how many upload bytes were read. -/
structure HandlerOut where
  result : Except HTTPErr TranscriptionResponse
  tempFile : Option Bytes
  bytesRead : Nat
deriving DecidableEq, Repr

/-- `transcribe_audio` (`main.py` lines 107-209): validate, ingest,
transcribe (the service call outcome is the oracle `svc`; a raised
non-HTTP exception is wrapped into a 500 with a `Transcription failed:`
detail), and in `finally` run `cleanup_temp_file` whenever
`temp_file_path` was set, i.e. exactly when ingestion returned
normally.  `removeOk` is the oracle for the `os.remove` inside cleanup. -/
def transcribe_audio (st : Settings) (filename : Option String) (chunks : List Bytes)
    (storageFail : Bool) (svc : Except String TranscribeOk) (removeOk : Bool) : HandlerOut :=
  match validate_audio_file filename st with
  | .error e => { result := .error e, tempFile := none, bytesRead := 0 }
  | .ok _ =>
    match save_upload_to_temp st chunks storageFail with
    | (.error e, fs, consumed) =>
      { result := .error e, tempFile := fs, bytesRead := consumed }
    | (.ok _, fs, consumed) =>
      match svc with
      | .error e =>
        { result := .error ⟨500, "Transcription failed: " ++ e⟩
          tempFile := cleanupFs fs removeOk, bytesRead := consumed }
      | .ok out =>
        { result := .ok ⟨out.text, out.language, out.duration, out.segments⟩
          tempFile := cleanupFs fs removeOk, bytesRead := consumed }

/-- The HTTP status the transport layer sees from one handler run. -/
def handlerStatus (h : HandlerOut) : Option Nat :=
  match h.result with
  | .error e => some e.code
  | .ok _ => none

/-! ## Formal renderings of the spec claims that the code falsifies -/

/-- The claim that over the process lifetime at most one engine
construction is ever attempted: calls during loading or after a load are
no-ops, and (implicitly) no sequence of calls — including one containing
a failed load — ever reaches a second construction attempt. -/
def ClaimTwoStatement : Prop :=
  (∀ (o : LoadOutcome) (s : LoaderState), s.model = true ∨ s.loading = true →
    load_model_async o s = s) ∧
  (∀ os : List LoadOutcome, (runCalls os initialLoader).attempts ≤ 1)

/-- The claim that `wait_for_model` never exits its wait before the
state is Ready or Failed or the timeout has elapsed, and returns
normally exactly when the model is ready. -/
def ClaimThreeStatement : Prop :=
  ∀ (σ : Nat → SvcObs) (timeout : Nat), CanonTrace σ →
    ((σ (loopExit σ timeout (timeout + 1) 0)).model = true ∨
      pyTruthyStr (σ (loopExit σ timeout (timeout + 1) 0)).load_error = true ∨
      timeout ≤ loopExit σ timeout (timeout + 1) 0) ∧
    (wait_for_model σ timeout = .ok () ↔
      (σ (loopExit σ timeout (timeout + 1) 0)).model = true)

/-- The claim's status-code mapping, including that a model-unavailable
failure (here: the wait timeout `RuntimeError` surfacing from the
service call) maps to 503. -/
def ClaimFourStatement : Prop :=
  ∀ (st : Settings) (fn : Option String) (chunks : List Bytes) (b : Bool),
    ((validate_audio_file fn st).isOk = false →
      ∀ svc, handlerStatus (transcribe_audio st fn chunks false svc b) = some 400) ∧
    ((validate_audio_file fn st).isOk = true →
      st.max_file_size_bytes < totalLen chunks →
      ∀ svc, handlerStatus (transcribe_audio st fn chunks false svc b) = some 413) ∧
    ((validate_audio_file fn st).isOk = true →
      totalLen chunks ≤ st.max_file_size_bytes →
      handlerStatus (transcribe_audio st fn chunks false (.error waitTimeoutMsg) b) = some 503)

/-- The claim that every unset parameter resolves to its default and
every set parameter — any string for `language`, any temperature in
`[0,1]`, any beam size in `[1,10]` — is passed through unchanged. -/
def ClaimEightStatement : Prop :=
  ∀ (st : Settings) (l : String) (t : Rat) (b : Nat),
    0 ≤ t → t ≤ 1 → 1 ≤ b → b ≤ 10 →
    resolveParams st none none none =
      (st.default_language, st.default_temperature, st.default_beam_size) ∧
    resolveParams st (some l) (some t) (some b) = (l, t, b)

/-- Settings with a zero byte limit, for exercising the oversize path on
a one-byte upload. -/
def settingsTinyLimit : Settings :=
  { defaultSettings with max_file_size_mb := 0 }

/-! ## Helper lemmas -/

/-- When `os.remove` succeeds, `cleanup_temp_file` leaves no file. -/
theorem cleanupFs_true (fs : Option Bytes) : cleanupFs fs true = none := by
  cases fs <;> rfl

/-- Every error `validate_audio_file` produces carries status 400. -/
theorem validate_code_eq_400 (fn : Option String) (st : Settings) (e : HTTPErr)
    (h : validate_audio_file fn st = .error e) : e.code = 400 := by
  unfold validate_audio_file at h
  split at h
  · cases h; rfl
  · split at h
    · cases h
    · cases h; rfl

/-- Characterize a successful validation: it requires a truthy filename
whose extension is in the allowed list. -/
theorem validate_ok_iff (fn : Option String) (st : Settings) :
    (validate_audio_file fn st).isOk = true ↔
      pyTruthyStr fn = true ∧
      st.allowed_formats_list.contains (fileExt (fn.getD "")) = true := by
  unfold validate_audio_file
  cases hf : pyTruthyStr fn
  · simp [Except.isOk, Except.toBool]
  · cases hcon : st.allowed_formats_list.contains (fileExt (fn.getD "")) <;>
      simp [Except.isOk, Except.toBool]

/-- The captured load-failure message is never the empty string. -/
theorem failedMsg_ne_empty (m : String) :
    ("Failed to load Whisper model: " ++ m) ≠ "" := by
  obtain ⟨l⟩ := m
  intro h
  have h2 : (some 'F' : Option Char) = none := congrArg (fun s => s.data.head?) h
  exact Option.noConfusion h2

/-- The captured load-failure message is Python-truthy, so the
`if self.load_error` branch fires on it. -/
theorem failedMsg_truthy (m : String) :
    pyTruthyStr (some ("Failed to load Whisper model: " ++ m)) = true := by
  simp [pyTruthyStr, failedMsg_ne_empty m]

/-- A load-failure message never equals the timeout message, so the two
failure kinds stay distinguishable in the raised error. -/
theorem failedMsg_ne_timeoutMsg (m : String) :
    ("Failed to load Whisper model: " ++ m) ≠ waitTimeoutMsg := by
  obtain ⟨l⟩ := m
  intro h
  have h2 : (some 'F' : Option Char) = some 'M' := congrArg (fun s => s.data.head?) h
  exact absurd (Option.some.inj h2) (by decide)

/-- When the whole stream fits in the limit, the saving loop writes all
chunks in order and reports the total byte count. -/
theorem saveLoop_success (maxB : Nat) :
    ∀ (chunks : List Bytes) (size : Nat) (content : Bytes),
      size + totalLen chunks ≤ maxB →
      saveLoop maxB chunks size content =
        (.ok (content ++ flattenChunks chunks), size + totalLen chunks) := by
  intro chunks
  induction chunks with
  | nil => intro size content _; simp [saveLoop, totalLen, flattenChunks]
  | cons c cs ih =>
    intro size content h
    rw [totalLen] at h
    have hno : ¬ maxB < size + c.length := by omega
    rw [saveLoop]
    simp only [hno, if_false]
    rw [ih (size + c.length) (content ++ c) (by omega)]
    rw [flattenChunks, totalLen, List.append_assoc, Nat.add_assoc]

/-- When the stream exceeds the limit, the saving loop aborts exactly at
the first chunk boundary whose running count exceeds the limit, having
consumed exactly the bytes of that minimal offending prefix. -/
theorem saveLoop_overflow (maxB : Nat) :
    ∀ (chunks : List Bytes) (size : Nat) (content : Bytes),
      size ≤ maxB → maxB < size + totalLen chunks →
      ∃ k, 0 < k ∧ k ≤ chunks.length ∧
        size + totalLen (chunks.take (k - 1)) ≤ maxB ∧
        maxB < size + totalLen (chunks.take k) ∧
        saveLoop maxB chunks size content = (.error (), size + totalLen (chunks.take k)) := by
  intro chunks
  induction chunks with
  | nil => intro size content h1 h2; rw [totalLen] at h2; omega
  | cons c cs ih =>
    intro size content h1 h2
    rw [totalLen] at h2
    by_cases hov : maxB < size + c.length
    · refine ⟨1, by omega, by simp, ?_, ?_, ?_⟩
      · simpa [totalLen] using h1
      · simpa [totalLen] using hov
      · rw [saveLoop]
        simp only [hov, if_true]
        simp [totalLen]
    · have hle : size + c.length ≤ maxB := by omega
      obtain ⟨k, hk0, hklen, hpre, hpost, heq⟩ :=
        ih (size + c.length) (content ++ c) hle (by omega)
      refine ⟨k + 1, by omega, by simpa using hklen, ?_, ?_, ?_⟩
      · have htk : (c :: cs).take (k + 1 - 1) = c :: cs.take (k - 1) := by
          have : k + 1 - 1 = (k - 1) + 1 := by omega
          rw [this, List.take_succ_cons]
        rw [htk, totalLen]; omega
      · rw [List.take_succ_cons, totalLen]; omega
      · rw [saveLoop]
        simp only [hov, if_false]
        rw [heq, List.take_succ_cons, totalLen, Nat.add_assoc]

/-- The segment loop of `transcribe` accumulates exactly the stripped
texts in order, and exactly the converted segments when requested. -/
theorem collectSegments_eq (inc : Bool) (segs : List EngineSegment) :
    collectSegments inc segs =
      (segs.map (fun s => trimStr s.text),
       if inc then
         segs.map (fun s => (⟨s.id, s.start, s.stop, trimStr s.text⟩ : TranscriptionSegment))
       else []) := by
  induction segs with
  | nil => cases inc <;> rfl
  | cons s rest ih =>
    rw [collectSegments, ih]
    cases inc <;> simp

/-- The polling loop of `wait_for_model` exits only when its condition
fails: at the exit index, the model is set, or no load is in flight, or
the timeout has elapsed (the fuel `timeout + 1` is never exhausted). -/
theorem loopExit_post (σ : Nat → SvcObs) (timeout : Nat) :
    ∀ (fuel k : Nat), timeout < k + fuel →
      ¬((σ (loopExit σ timeout fuel k)).model = false ∧
        (σ (loopExit σ timeout fuel k)).loading = true ∧
        loopExit σ timeout fuel k < timeout) := by
  intro fuel
  induction fuel with
  | zero => intro k h; rw [loopExit]; intro hc; omega
  | succ n ih =>
    intro k h
    rw [loopExit]
    by_cases hc : (σ k).model = false ∧ (σ k).loading = true ∧ k < timeout
    · rw [if_pos hc]
      exact ih (k + 1) (by omega)
    · rw [if_neg hc]
      exact hc

/-- Invariant for all-success call sequences: starting from a state with
no load in flight, at most one construction attempt and none unless the
model is set, the count never passes one. -/
theorem runCalls_success_attempts :
    ∀ (os : List LoadOutcome) (s : LoaderState),
      (∀ o ∈ os, o = LoadOutcome.success) →
      s.loading = false → (s.model = false → s.attempts = 0) → s.attempts ≤ 1 →
      (runCalls os s).attempts ≤ 1 := by
  intro os
  induction os with
  | nil => intro s _ _ _ h4; exact h4
  | cons o rest ih =>
    intro s hall h2 h3 h4
    have ho : o = LoadOutcome.success := hall o (by simp)
    subst ho
    rw [runCalls]
    by_cases hm : s.model = true
    · have : load_model_async .success s = s := by
        unfold load_model_async; simp [hm]
      rw [this]
      exact ih s (fun o ho => hall o (by simp [ho])) h2 h3 h4
    · have hm2 : s.model = false := by
        cases hmm : s.model
        · rfl
        · exact absurd hmm hm
      have : load_model_async .success s =
          { s with model := true, loading := false, attempts := s.attempts + 1 } := by
        unfold load_model_async loadBody; simp [hm2, h2]
      rw [this]
      refine ih _ (fun o ho => hall o (by simp [ho])) rfl (fun hc => by cases hc) ?_
      have := h3 hm2
      simp [this]

/-- Whenever `save_upload_to_temp` fails, it has already deleted the
partial file: the temp slot is empty. -/
theorem save_error_tempFile_none (st : Settings) (chunks : List Bytes) (sf : Bool)
    (e : HTTPErr) (fs : Option Bytes) (consumed : Nat)
    (h : save_upload_to_temp st chunks sf = (.error e, fs, consumed)) : fs = none := by
  unfold save_upload_to_temp at h
  by_cases hsf : sf = true
  · rw [if_pos hsf] at h
    simp only [Prod.mk.injEq] at h
    exact h.2.1.symm
  · rw [if_neg hsf] at h
    rcases hl : saveLoop st.max_file_size_bytes chunks 0 [] with ⟨r, consumed2⟩
    rw [hl] at h
    rcases r with u | content
    · simp only [Prod.mk.injEq] at h
      exact h.2.1.symm
    · simp only [Prod.mk.injEq] at h
      exact absurd h.1 (by simp)

/-! ## Claim theorems -/

/-- C1: on every exit path of `transcribe_audio` — success, validation
failure, ingestion failure (size, storage), service failure (including
model unavailability) or any wrapped unexpected exception — no file
remains at the request's temp path when the `finally` deletion succeeds,
and whether that deletion succeeds or fails never changes the handler's
result or error. -/
theorem cleanup_runs_on_every_exit_path (st : Settings) (fn : Option String)
    (chunks : List Bytes) (sf : Bool) (svc : Except String TranscribeOk) (b : Bool) :
    (transcribe_audio st fn chunks sf svc true).tempFile = none ∧
    (transcribe_audio st fn chunks sf svc b).result =
      (transcribe_audio st fn chunks sf svc true).result := by
  unfold transcribe_audio
  rcases hv : validate_audio_file fn st with e | u
  · exact ⟨rfl, rfl⟩
  · rcases hs : save_upload_to_temp st chunks sf with ⟨res, fs, consumed⟩
    rcases res with e | sz
    · have hn := save_error_tempFile_none st chunks sf e fs consumed hs
      subst hn
      exact ⟨rfl, rfl⟩
    · rcases svc with e | out
      · exact ⟨cleanupFs_true fs, rfl⟩
      · exact ⟨cleanupFs_true fs, rfl⟩

/-- C2 counterexample: the claim that at most one engine construction is
ever attempted is false — after a failed load (`load_error` recorded,
`loading` back to false, `model` still unset) a further
`load_model_async` call passes the guard and attempts construction
again, giving two attempts on the call sequence
`[failure, success]`. -/
theorem load_retry_after_failure_counterexample : ¬ ClaimTwoStatement := by
  intro h
  have h2 := h.2 [LoadOutcome.failure "boom", LoadOutcome.success]
  have h3 : (runCalls [LoadOutcome.failure "boom", LoadOutcome.success]
      initialLoader).attempts = 2 := by decide
  rw [h3] at h2
  exact absurd h2 (by decide)

/-- C2 amended: a `load_model_async` call while the model is loaded or a
load is in flight is a no-op, and as long as no construction attempt has
failed, at most one construction is ever attempted; after a failure a
later call may start a fresh attempt. -/
theorem load_single_attempt_while_no_failure :
    (∀ (o : LoadOutcome) (s : LoaderState), s.model = true ∨ s.loading = true →
      load_model_async o s = s) ∧
    (∀ os : List LoadOutcome, (∀ o ∈ os, o = LoadOutcome.success) →
      (runCalls os initialLoader).attempts ≤ 1) := by
  constructor
  · intro o s h
    unfold load_model_async
    rcases h with h | h <;> simp [h]
  · intro os h
    exact runCalls_success_attempts os initialLoader h rfl (fun _ => rfl) (by decide)

/-- Witness for the amended C2 at concrete inputs. -/
theorem load_single_attempt_while_no_failure_witness :
    load_model_async LoadOutcome.success
        { model := true, loading := false, load_error := none, attempts := 1 } =
      { model := true, loading := false, load_error := none, attempts := 1 } ∧
    (runCalls [LoadOutcome.success, LoadOutcome.success] initialLoader).attempts ≤ 1 :=
  ⟨load_single_attempt_while_no_failure.1 _ _ (Or.inl rfl),
   load_single_attempt_while_no_failure.2 _ (by decide)⟩

/-- C5: an upload whose total byte count exceeds the configured maximum
is rejected with the 413 error carrying the configured limit, no file
remains at the temp path, and the stream is consumed exactly up to the
first chunk boundary at which the running count exceeds the limit. -/
theorem oversize_upload_rejected (st : Settings) (chunks : List Bytes)
    (h : st.max_file_size_bytes < totalLen chunks) :
    (save_upload_to_temp st chunks false).1 =
      .error ⟨413, "File too large. Maximum size: " ++ toString st.max_file_size_mb ++ "MB"⟩ ∧
    (save_upload_to_temp st chunks false).2.1 = none ∧
    ∃ k, 0 < k ∧ k ≤ chunks.length ∧
      totalLen (chunks.take (k - 1)) ≤ st.max_file_size_bytes ∧
      st.max_file_size_bytes < totalLen (chunks.take k) ∧
      (save_upload_to_temp st chunks false).2.2 = totalLen (chunks.take k) := by
  obtain ⟨k, hk0, hklen, hpre, hpost, heq⟩ :=
    saveLoop_overflow st.max_file_size_bytes chunks 0 [] (Nat.zero_le _) (by omega)
  have hsave : save_upload_to_temp st chunks false =
      (.error ⟨413, "File too large. Maximum size: " ++ toString st.max_file_size_mb ++ "MB"⟩,
       none, 0 + totalLen (chunks.take k)) := by
    unfold save_upload_to_temp
    rw [if_neg Bool.false_ne_true, heq]
  refine ⟨by rw [hsave], by rw [hsave], k, hk0, hklen, by omega, by omega, ?_⟩
  rw [hsave, Nat.zero_add]

/-- Witness for C5 on a one-byte upload against a zero limit. -/
theorem oversize_upload_rejected_witness :
    (save_upload_to_temp settingsTinyLimit [[1]] false).2.1 = none ∧
    (save_upload_to_temp settingsTinyLimit [[1]] false).1 =
      .error ⟨413, "File too large. Maximum size: 0MB"⟩ := by
  have h := oversize_upload_rejected settingsTinyLimit [[1]] (by decide)
  exact ⟨h.2.1, h.1⟩

/-- C6: a missing/empty filename or a disallowed extension is rejected
with a 400 before any byte of the upload body is read and with no temp
artifact ever created. -/
theorem invalid_filename_rejected_before_read (st : Settings) (fn : Option String)
    (chunks : List Bytes) (sf : Bool) (svc : Except String TranscribeOk) (b : Bool)
    (h : pyTruthyStr fn = false ∨
      st.allowed_formats_list.contains (fileExt (fn.getD "")) = false) :
    handlerStatus (transcribe_audio st fn chunks sf svc b) = some 400 ∧
    (transcribe_audio st fn chunks sf svc b).tempFile = none ∧
    (transcribe_audio st fn chunks sf svc b).bytesRead = 0 := by
  have hval : ∃ e, validate_audio_file fn st = .error e ∧ e.code = 400 := by
    rcases h with h | h
    · exact ⟨_, by unfold validate_audio_file; rw [if_pos h], rfl⟩
    · by_cases h2 : pyTruthyStr fn = false
      · exact ⟨_, by unfold validate_audio_file; rw [if_pos h2], rfl⟩
      · exact ⟨_, by
          unfold validate_audio_file
          rw [if_neg h2, if_neg (fun hc => absurd (h ▸ hc) Bool.false_ne_true)], rfl⟩
  obtain ⟨e, he, hcode⟩ := hval
  unfold transcribe_audio
  rw [he]
  exact ⟨by simp [handlerStatus, hcode], rfl, rfl⟩

/-- Witness for C6 on the spec's `sample.xyz` scenario. -/
theorem invalid_filename_rejected_before_read_witness :
    handlerStatus (transcribe_audio defaultSettings (some "sample.xyz") [[1]] false
        (.ok ⟨"t", "en", 1, none⟩) true) = some 400 ∧
    (transcribe_audio defaultSettings (some "sample.xyz") [[1]] false
        (.ok ⟨"t", "en", 1, none⟩) true).tempFile = none ∧
    (transcribe_audio defaultSettings (some "sample.xyz") [[1]] false
        (.ok ⟨"t", "en", 1, none⟩) true).bytesRead = 0 :=
  invalid_filename_rejected_before_read defaultSettings (some "sample.xyz") [[1]] false
    (.ok ⟨"t", "en", 1, none⟩) true (Or.inr (by decide))

/-- C9: whenever saving returns normally, the reported size is the total
length of the stream's chunks and at most the configured maximum, the
stored file is exactly the stream's bytes in order, and the stream was
consumed exactly that far. -/
theorem saved_file_matches_stream (st : Settings) (chunks : List Bytes)
    (sz : Nat) (content : Bytes) (consumed : Nat)
    (h : save_upload_to_temp st chunks false = (.ok sz, some content, consumed)) :
    content = flattenChunks chunks ∧ sz = totalLen chunks ∧
    sz ≤ st.max_file_size_bytes ∧ consumed = sz := by
  by_cases hov : st.max_file_size_bytes < totalLen chunks
  · obtain ⟨k, _, _, _, _, heq⟩ :=
      saveLoop_overflow st.max_file_size_bytes chunks 0 [] (Nat.zero_le _) (by omega)
    unfold save_upload_to_temp at h
    rw [if_neg Bool.false_ne_true, heq] at h
    simp at h
  · have heq := saveLoop_success st.max_file_size_bytes chunks 0 [] (by omega)
    unfold save_upload_to_temp at h
    rw [if_neg Bool.false_ne_true, heq] at h
    simp only [Prod.mk.injEq, Except.ok.injEq, Option.some.injEq, List.nil_append,
      Nat.zero_add] at h
    obtain ⟨h1, h2, h3⟩ := h
    refine ⟨h2.symm, h1.symm, ?_, ?_⟩ <;> omega

/-- Witness for C9 on a concrete two-chunk upload. -/
theorem saved_file_matches_stream_witness :
    ([1, 2, 3] : Bytes) = flattenChunks [[1, 2], [3]] ∧
    (3 : Nat) = totalLen [[1, 2], [3]] ∧
    (3 : Nat) ≤ defaultSettings.max_file_size_bytes ∧ (3 : Nat) = 3 :=
  saved_file_matches_stream defaultSettings [[1, 2], [3]] 3 [1, 2, 3] 3 (by decide)

/-- C3 counterexample: from the Uninitialized state (no load in flight,
none recorded), `wait_for_model` exits its wait at poll 0 — before the
timeout has elapsed and while the state is neither Ready nor Failed —
so the claim's "never return early while neither Ready nor Failed" is
false on the code. -/
theorem wait_returns_early_counterexample : ¬ ClaimThreeStatement := by
  intro h
  have h2 := h (fun _ => uninitObs) 1 (fun _ => Or.inl rfl)
  rcases h2.1 with hc | hc | hc
  · exact absurd hc (by decide)
  · exact absurd hc (by decide)
  · exact absurd hc (by decide)

/-- Unfolding of `wait_for_model` used to reason about its poll loop. -/
theorem wait_for_model_eval (σ : Nat → SvcObs) (timeout : Nat) :
    wait_for_model σ timeout =
      if pyTruthyStr (σ (loopExit σ timeout (timeout + 1) 0)).load_error then
        .error ((σ (loopExit σ timeout (timeout + 1) 0)).load_error.getD "")
      else if (σ (loopExit σ timeout (timeout + 1) 0)).model = false then
        .error waitTimeoutMsg
      else .ok () := rfl

/-- C3 amended: `wait_for_model` waits until the state is Ready or
Failed or the timeout elapses or no load is in progress (in that last,
Uninitialized case it gives up immediately with the timeout/not-started
description); it returns normally iff the model is Ready; on a recorded
failure it raises the captured message, which is distinguishable from
the timeout description; otherwise it raises the timeout description. -/
theorem wait_blocks_until_outcome_or_idle (σ : Nat → SvcObs) (timeout : Nat)
    (hc : CanonTrace σ) :
    ((σ (loopExit σ timeout (timeout + 1) 0)).model = true ∨
      timeout ≤ loopExit σ timeout (timeout + 1) 0 ∨
      (σ (loopExit σ timeout (timeout + 1) 0)).loading = false) ∧
    (wait_for_model σ timeout = .ok () ↔
      (σ (loopExit σ timeout (timeout + 1) 0)).model = true) ∧
    (∀ m, σ (loopExit σ timeout (timeout + 1) 0) = failedObs m →
      wait_for_model σ timeout = .error ("Failed to load Whisper model: " ++ m) ∧
      ("Failed to load Whisper model: " ++ m) ≠ waitTimeoutMsg) ∧
    ((σ (loopExit σ timeout (timeout + 1) 0)).model = false →
      pyTruthyStr (σ (loopExit σ timeout (timeout + 1) 0)).load_error = false →
      wait_for_model σ timeout = .error waitTimeoutMsg) := by
  have hpost := loopExit_post σ timeout (timeout + 1) 0 (by omega)
  rw [wait_for_model_eval]
  set k := loopExit σ timeout (timeout + 1) 0 with hk
  refine ⟨?_, ?_, ?_, ?_⟩
  · by_cases hm : (σ k).model = true
    · exact Or.inl hm
    · have hm2 : (σ k).model = false := by
        cases hb : (σ k).model
        · rfl
        · exact absurd hb hm
      by_cases hl : (σ k).loading = true
      · refine Or.inr (Or.inl ?_)
        by_contra hnle
        exact hpost ⟨hm2, hl, by omega⟩
      · have hl2 : (σ k).loading = false := by
          cases hb : (σ k).loading
          · rfl
          · exact absurd hb hl
        exact Or.inr (Or.inr hl2)
  · rcases hc k with h1 | h1 | h1 | ⟨m, h1⟩ <;> rw [h1]
    · simp [uninitObs, pyTruthyStr]
    · simp [loadingObs, pyTruthyStr]
    · simp [readyObs, pyTruthyStr]
    · simp [failedObs, failedMsg_truthy]
  · intro m h1
    rw [h1]
    refine ⟨?_, failedMsg_ne_timeoutMsg m⟩
    simp [failedObs, failedMsg_truthy]
  · intro hm hperr
    simp [hperr, hm]

/-- Witness for the amended C3 on a trace that is Ready throughout. -/
theorem wait_blocks_witness :
    wait_for_model (fun _ => readyObs) 2 = .ok () := by
  have h := wait_blocks_until_outcome_or_idle (fun _ => readyObs) 2
    (fun _ => Or.inr (Or.inr (Or.inl rfl)))
  exact h.2.1.mpr (by decide)

/-- C4 counterexample: a request that fails because the model is
unavailable (the wait timeout `RuntimeError` surfacing from the service
call) is answered with 500, not the claimed 503 — the handler's
`except Exception` maps every non-HTTP failure to 500 and no 503 exists
in the code. -/
theorem model_unavailable_maps_to_500 : ¬ ClaimFourStatement := by
  intro h
  have h2 := (h defaultSettings (some "a.mp3") [] true).2.2 (by decide) (by decide)
  have h3 : handlerStatus (transcribe_audio defaultSettings (some "a.mp3") [] false
      (.error waitTimeoutMsg) true) = some 500 := by decide
  rw [h3] at h2
  exact absurd (Option.some.inj h2) (by decide)

/-- C4 amended: the handler's full status mapping — 400 exactly when
validation fails (missing/empty filename or disallowed extension), 500
when storage fails, 413 when the upload exceeds the configured limit,
500 for every service failure (model not ready, load timeout, prior load
failure, inference failure, unexpected exception), and no error
otherwise; in particular no failure kind maps to 503. -/
theorem status_code_mapping (st : Settings) (fn : Option String) (chunks : List Bytes)
    (sf : Bool) (svc : Except String TranscribeOk) (b : Bool) :
    handlerStatus (transcribe_audio st fn chunks sf svc b) =
      if (validate_audio_file fn st).isOk = false then some 400
      else if sf = true then some 500
      else if st.max_file_size_bytes < totalLen chunks then some 413
      else if svc.isOk = false then some 500
      else none := by
  unfold transcribe_audio
  rcases hv : validate_audio_file fn st with e | u
  · have hcode := validate_code_eq_400 fn st e hv
    simp [handlerStatus, Except.isOk, Except.toBool, hcode]
  · cases sf
    · by_cases hov : st.max_file_size_bytes < totalLen chunks
      · obtain ⟨k, _, _, _, _, heq⟩ :=
          saveLoop_overflow st.max_file_size_bytes chunks 0 [] (Nat.zero_le _) (by omega)
        have hsave : save_upload_to_temp st chunks false =
            (.error ⟨413, "File too large. Maximum size: " ++
                toString st.max_file_size_mb ++ "MB"⟩,
             none, 0 + totalLen (chunks.take k)) := by
          unfold save_upload_to_temp
          rw [if_neg Bool.false_ne_true, heq]
        rw [hsave]
        simp [handlerStatus, Except.isOk, Except.toBool, hov]
      · have heq := saveLoop_success st.max_file_size_bytes chunks 0 [] (by omega)
        have hsave : save_upload_to_temp st chunks false =
            (.ok (0 + totalLen chunks), some ([] ++ flattenChunks chunks),
             0 + totalLen chunks) := by
          unfold save_upload_to_temp
          rw [if_neg Bool.false_ne_true, heq]
        rw [hsave]
        rcases svc with e2 | out <;>
          simp [handlerStatus, Except.isOk, Except.toBool, hov]
    · have hsave : save_upload_to_temp st chunks true =
          (.error ⟨500, "Failed to save uploaded file"⟩, none, 0) := by
        unfold save_upload_to_temp
        rw [if_pos rfl]
      rw [hsave]
      simp [handlerStatus, Except.isOk, Except.toBool]

/-- C7: the invoker joins the stripped segment texts with single spaces
(the empty segment list giving the empty string), returns exactly the
engine's segments in order with stripped text when segments were
requested and nothing otherwise, and reports the engine's language,
falling back to the supplied input language when the engine reports
none (Python-falsy). -/
theorem transcript_assembly (segs : List EngineSegment) (info : EngineInfo)
    (language : String) (inc : Bool) :
    transcribeCore segs info language inc =
      (joinWith " " (segs.map (fun s => trimStr s.text)),
       (match info.language with
        | some l => if l = "" then language else l
        | none => language),
       if inc then
         some (segs.map (fun s =>
           ({ id := s.id, start := s.start, stop := s.stop, text := trimStr s.text } :
             TranscriptionSegment)))
       else none) ∧
    (transcribeCore [] info language inc).1 = "" := by
  constructor
  · unfold transcribeCore
    rw [collectSegments_eq]
    rcases info with ⟨lang⟩
    rcases lang with _ | l
    · cases inc <;> simp [pyTruthyStr]
    · by_cases hl : l = ""
      · subst hl
        cases inc <;> simp [pyTruthyStr]
      · cases inc <;> simp [pyTruthyStr, hl]
  · unfold transcribeCore
    rw [collectSegments_eq]
    rfl

/-- C8 counterexample: a set but empty `language` (a legal value of the
claim's "optional string") is not passed through — `language or default`
treats Python-falsy values as unset, so the default replaces it. -/
theorem empty_language_not_passed_through : ¬ ClaimEightStatement := by
  intro h
  have h2 := (h defaultSettings "" 0 5 (by decide) (by decide) (by decide) (by decide)).2
  have h3 : resolveParams defaultSettings (some "") (some 0) (some 5) =
      ("it", 0, 5) := by decide
  rw [h3] at h2
  have h4 := congrArg Prod.fst h2
  exact absurd h4 (by decide)

/-- C8 amended: unset parameters resolve to the configured defaults at
call time; a set temperature is always passed through; a set language or
beam size is passed through unless Python-falsy (empty string, zero) —
within the claim's domains only the empty-string language diverges, and
it resolves to the default language. -/
theorem param_resolution (st : Settings) (lo : Option String) (tp : Option Rat)
    (bo : Option Nat) (l : String) (t : Rat) (b : Nat) :
    resolveParams st none none none =
      (st.default_language, st.default_temperature, st.default_beam_size) ∧
    (lo = some l → l ≠ "" → (resolveParams st lo tp bo).1 = l) ∧
    (tp = some t → (resolveParams st lo tp bo).2.1 = t) ∧
    (bo = some b → 1 ≤ b → (resolveParams st lo tp bo).2.2 = b) ∧
    (lo = some "" → (resolveParams st lo tp bo).1 = st.default_language) := by
  refine ⟨rfl, ?_, ?_, ?_, ?_⟩
  · intro h1 h2
    subst h1
    simp [resolveParams, h2]
  · intro h1
    subst h1
    simp [resolveParams]
  · intro h1 h2
    subst h1
    have hb : b ≠ 0 := by omega
    simp [resolveParams, hb]
  · intro h1
    subst h1
    simp [resolveParams]

/-- Witness for the amended C8 at concrete parameter values. -/
theorem param_resolution_witness :
    resolveParams defaultSettings none none none = ("it", 0, 5) ∧
    (resolveParams defaultSettings (some "en") (some 1) (some 2)).1 = "en" ∧
    (resolveParams defaultSettings (some "en") (some 1) (some 2)).2.1 = 1 ∧
    (resolveParams defaultSettings (some "en") (some 1) (some 2)).2.2 = 2 ∧
    (resolveParams defaultSettings (some "") (some 1) (some 2)).1 = "it" := by
  have h := param_resolution defaultSettings (some "en") (some 1) (some 2) "en" 1 2
  have h2 := param_resolution defaultSettings (some "") (some 1) (some 2) "" 1 2
  exact ⟨h.1, h.2.1 rfl (by decide), h.2.2.1 rfl, h.2.2.2.1 rfl (by decide),
    h2.2.2.2.2 rfl⟩

/-- C10: `cleanup_temp_file` never raises, is a filesystem no-op when
nothing exists at the path, and is idempotent. -/
theorem cleanup_total_noop_idempotent (fs : Option Bytes) (r : Bool) :
    (cleanup_temp_file fs r).isOk = true ∧
    cleanup_temp_file none r = .ok none ∧
    cleanupFs (cleanupFs fs r) r = cleanupFs fs r := by
  rcases fs with _ | c <;> cases r <;> exact ⟨rfl, rfl, rfl⟩
